import Mathlib

/-!
Verification of the `EarlyAllocator` bump allocator
(`src/arceos/modules/bump_allocator/src/lib.rs`).

The allocator manages one contiguous region `[start, end)`: byte
allocations grow a pointer `b_pos` forward from `start`, page
allocations shrink a pointer `p_pos` backward from `end`.  All fields
are Rust `usize` values; the release-build semantics of `usize`
arithmetic is wrapping (modulo `2 ^ 64`), which we model explicitly
with the `wadd` / `wsub` / `wmul` / `wnot` helpers below.
-/

/-- Modulus of the Rust `usize` type (64-bit target). -/
def USIZE : Nat := 2 ^ 64

/-- Wrapping `usize` addition. -/
def wadd (a b : Nat) : Nat := (a + b) % USIZE

/-- Wrapping `usize` subtraction (two's-complement wraparound). -/
def wsub (a b : Nat) : Nat := (a % USIZE + (USIZE - b % USIZE)) % USIZE

/-- Wrapping `usize` multiplication. -/
def wmul (a b : Nat) : Nat := a * b % USIZE

/-- Bitwise complement `!a` on `usize`. -/
def wnot (a : Nat) : Nat := USIZE - 1 - a % USIZE

/-- State of `EarlyAllocator<PAGE_SIZE>`: the six `usize` fields of the
Rust struct.  (`count` is the spec's `byte_count`.) -/
structure EarlyAllocator where
  start : Nat
  «end» : Nat
  b_pos : Nat
  p_pos : Nat
  count : Nat
  page_count : Nat
deriving Repr, DecidableEq

namespace EarlyAllocator

/-- Constructor `EarlyAllocator::new()`: all fields zero. -/
def new : EarlyAllocator :=
  { start := 0, «end» := 0, b_pos := 0, p_pos := 0, count := 0, page_count := 0 }

/-- Helper `fn align_up(&self, v, align) = (v + align - 1) & !(align - 1)`. -/
def align_up (v align : Nat) : Nat :=
  wsub (wadd v align) 1 &&& wnot (wsub align 1)

/-- Helper `fn align_down(&self, v, align) = v & !(align - 1)`. -/
def align_down (v align : Nat) : Nat :=
  v % USIZE &&& wnot (wsub align 1)

/-- Method `BaseAllocator::init(&mut self, start, size)`. -/
def init (PAGE_SIZE : Nat) (s : EarlyAllocator) (start size : Nat) : EarlyAllocator :=
  { s with
    start := start
    «end» := wadd start size / PAGE_SIZE * PAGE_SIZE
    b_pos := start
    p_pos := wadd start size }

/-- Outcome of `BaseAllocator::add_memory`: the body is `unimplemented!()`,
so the only outcome the code can produce is a panic. -/
inductive ExtendOutcome where
  | ok
  | unsupported
  | panicUnimpl
deriving Repr, DecidableEq

/-- Method `BaseAllocator::add_memory(&mut self, start, size)`: `unimplemented!()`
panics before touching any state. -/
def add_memory (s : EarlyAllocator) (start size : Nat) :
    ExtendOutcome × EarlyAllocator :=
  (ExtendOutcome.panicUnimpl, s)

/-- Outcome of `ByteAllocator::alloc`: success with the returned address,
`AllocError::NoMemory`, or the panic of `NonNull::new(p).unwrap()` when the
produced pointer is null. -/
inductive ARes where
  | ok (addr : Nat)
  | noMemory
  | panicNull
deriving Repr, DecidableEq

/-- Method `ByteAllocator::alloc(&mut self, layout)` with `size = layout.size()`,
`align = layout.align()`. -/
def alloc (s : EarlyAllocator) (size align : Nat) : ARes × EarlyAllocator :=
  let b_pos := align_up s.b_pos align
  if wadd b_pos size ≤ s.p_pos then
    (if b_pos = 0 then ARes.panicNull else ARes.ok b_pos,
     { s with b_pos := wadd b_pos size, count := wadd s.count 1 })
  else
    (ARes.noMemory, s)

/-- Method `ByteAllocator::dealloc(&mut self, pos, layout)`: decrements `count`
(wrapping) and resets `b_pos` to `start` when the new count is zero.
The `pos`/`size`/`align` arguments are ignored by the source. -/
def dealloc (s : EarlyAllocator) (pos size align : Nat) : EarlyAllocator :=
  let c := wsub s.count 1
  if c = 0 then { s with count := c, b_pos := s.start }
  else { s with count := c }

/-- Accessor `ByteAllocator::total_bytes`. -/
def total_bytes (s : EarlyAllocator) : Nat := wsub s.p_pos s.start

/-- Accessor `ByteAllocator::used_bytes`. -/
def used_bytes (s : EarlyAllocator) : Nat := wsub s.b_pos s.start

/-- Accessor `ByteAllocator::available_bytes`. -/
def available_bytes (s : EarlyAllocator) : Nat := wsub s.p_pos s.b_pos

/-- Outcome of `PageAllocator::alloc_pages`. -/
inductive PRes where
  | ok (addr : Nat)
  | noMemory
deriving Repr, DecidableEq

/-- Method `PageAllocator::alloc_pages(&mut self, num_pages, align_pow2)`.
`1 << align_pow2` in a release build masks the shift amount modulo the
bit width, hence `align = 2 ^ (align_pow2 % 64)`. -/
def alloc_pages (PAGE_SIZE : Nat) (s : EarlyAllocator) (num_pages align_pow2 : Nat) :
    PRes × EarlyAllocator :=
  let align := 2 ^ (align_pow2 % 64)
  let p_pos := align_down (wsub s.p_pos (wmul num_pages PAGE_SIZE)) align
  if s.b_pos ≤ p_pos then
    (PRes.ok p_pos, { s with p_pos := p_pos, page_count := wadd s.page_count num_pages })
  else
    (PRes.noMemory, s)

/-- Method `PageAllocator::dealloc_pages(&mut self, pos, num_pages)`: decrements
`page_count` (wrapping) and resets `p_pos` to `end` when the new count is
zero.  The `pos` argument is ignored by the source. -/
def dealloc_pages (s : EarlyAllocator) (pos num_pages : Nat) : EarlyAllocator :=
  let c := wsub s.page_count num_pages
  if c = 0 then { s with page_count := c, p_pos := s.«end» }
  else { s with page_count := c }

/-- Accessor `PageAllocator::total_pages`. -/
def total_pages (PAGE_SIZE : Nat) (s : EarlyAllocator) : Nat :=
  wsub s.«end» s.b_pos / PAGE_SIZE

/-- Accessor `PageAllocator::used_pages`. -/
def used_pages (PAGE_SIZE : Nat) (s : EarlyAllocator) : Nat :=
  wsub s.«end» s.p_pos / PAGE_SIZE

/-- Accessor `PageAllocator::available_pages`. -/
def available_pages (PAGE_SIZE : Nat) (s : EarlyAllocator) : Nat :=
  wsub s.p_pos s.b_pos / PAGE_SIZE

end EarlyAllocator

/-! ### Arithmetic helper lemmas -/

theorem USIZE_pos : 0 < USIZE := by decide

theorem wadd_small {a b : Nat} (h : a + b < USIZE) : wadd a b = a + b := by
  unfold wadd
  exact Nat.mod_eq_of_lt h

theorem wsub_small {a b : Nat} (hb : b ≤ a) (ha : a < USIZE) : wsub a b = a - b := by
  unfold wsub
  rw [Nat.mod_eq_of_lt ha, Nat.mod_eq_of_lt (lt_of_le_of_lt hb ha)]
  rw [show a + (USIZE - b) = (a - b) + 1 * USIZE by omega]
  rw [Nat.add_mul_mod_self_right, Nat.mod_eq_of_lt (by omega)]

theorem wsub_wadd_one {v a : Nat} (ha : 0 < a) (h : v + a ≤ USIZE) :
    wsub (wadd v a) 1 = v + a - 1 := by
  rcases Nat.lt_or_ge (v + a) USIZE with hlt | hge
  · rw [wadd_small hlt, wsub_small (by omega) hlt]
  · have heq : v + a = USIZE := le_antisymm h hge
    have h1 : wadd v a = 0 := by
      unfold wadd
      rw [heq, Nat.mod_self]
    rw [h1]
    unfold wsub
    have h2 : (1 : Nat) % USIZE = 1 := by decide
    rw [h2, Nat.zero_mod, Nat.zero_add, Nat.mod_eq_of_lt (by omega)]
    omega

/-- Bitwise and with the high mask `2 ^ 64 - 2 ^ k` clears the `k` low bits,
i.e. rounds down to a multiple of `2 ^ k`. -/
theorem land_high_mask {w k : Nat} (hk : k ≤ 64) (hw : w < USIZE) :
    w &&& (USIZE - 2 ^ k) = w / 2 ^ k * 2 ^ k := by
  rcases Nat.lt_or_ge k 64 with hk64 | hk64
  · have hmask : USIZE - 2 ^ k = (2 ^ (64 - k) - 1) <<< k := by
      rw [Nat.shiftLeft_eq, Nat.sub_mul, one_mul, ← Nat.pow_add]
      have : 64 - k + k = 64 := by omega
      rw [this]
      rfl
    have hrhs : w / 2 ^ k * 2 ^ k = (w >>> k) <<< k := by
      rw [Nat.shiftLeft_eq, Nat.shiftRight_eq_div_pow]
    rw [hmask, hrhs]
    apply Nat.eq_of_testBit_eq
    intro i
    rw [Nat.testBit_land, Nat.testBit_shiftLeft, Nat.testBit_shiftLeft,
        Nat.testBit_shiftRight, Nat.testBit_two_pow_sub_one]
    by_cases hik : k ≤ i
    · by_cases hi64 : i < 64
      · have h1 : i - k < 64 - k := by omega
        have h2 : k + (i - k) = i := by omega
        simp [hik, h1, h2]
      · have hwi : w.testBit i = false := by
          apply Nat.testBit_lt_two_pow
          calc w < USIZE := hw
            _ ≤ 2 ^ i := Nat.pow_le_pow_right (by norm_num) (by omega)
        have h2 : k + (i - k) = i := by omega
        simp [hik, h2, hwi]
    · simp [hik]
  · have hkeq : k = 64 := le_antisymm hk hk64
    subst hkeq
    have h0 : USIZE - 2 ^ 64 = 0 := by decide
    have hw' : w < 2 ^ 64 := hw
    rw [h0, Nat.and_zero, Nat.div_eq_of_lt hw', Nat.zero_mul]

/-- The mask `!(2 ^ j - 1)` computed by the source helpers equals the
high mask `2 ^ 64 - 2 ^ j`. -/
theorem wnot_mask {j : Nat} (hj : j ≤ 64) :
    wnot (wsub (2 ^ j) 1) = USIZE - 2 ^ j := by
  have hpow : (0 : Nat) < 2 ^ j := Nat.pos_pow_of_pos j (by norm_num)
  rcases Nat.lt_or_ge j 64 with hj64 | hj64
  · have hlt : 2 ^ j < USIZE := by
      have := Nat.pow_lt_pow_right (a := 2) (by norm_num) hj64
      simpa [USIZE] using this
    rw [wsub_small hpow hlt]
    unfold wnot
    rw [Nat.mod_eq_of_lt (by omega)]
    omega
  · have hjeq : j = 64 := le_antisymm hj hj64
    subst hjeq
    decide

theorem align_down_eq {v j : Nat} (hj : j ≤ 64) (hv : v < USIZE) :
    EarlyAllocator.align_down v (2 ^ j) = v / 2 ^ j * 2 ^ j := by
  unfold EarlyAllocator.align_down
  rw [Nat.mod_eq_of_lt hv, wnot_mask hj, land_high_mask hj hv]

theorem align_up_eq {v j : Nat} (hj : j ≤ 64) (h : v + 2 ^ j ≤ USIZE) :
    EarlyAllocator.align_up v (2 ^ j) = (v + 2 ^ j - 1) / 2 ^ j * 2 ^ j := by
  have hpow : (0 : Nat) < 2 ^ j := Nat.pos_pow_of_pos j (by norm_num)
  unfold EarlyAllocator.align_up
  rw [wsub_wadd_one hpow h, wnot_mask hj, land_high_mask hj (by omega)]

/-- Rounding `v` up to a multiple of `a` does not go below `v`. -/
theorem le_align_up_mul {v a : Nat} (ha : 0 < a) : v ≤ (v + a - 1) / a * a := by
  have h1 : (v + a - 1) / a * a + (v + a - 1) % a = v + a - 1 := Nat.div_add_mod' _ _
  have h2 : (v + a - 1) % a < a := Nat.mod_lt _ ha
  omega

/-- Rounding `v` up to a multiple of `a` stays below `v + a`. -/
theorem align_up_mul_le {v a : Nat} : (v + a - 1) / a * a ≤ v + a - 1 :=
  Nat.div_mul_le_self _ _

/-- Rounding down strictly decreases a value that is not a multiple. -/
theorem div_mul_lt_of_not_dvd {v a : Nat} (ha : 0 < a) (h : ¬ a ∣ v) :
    v / a * a < v := by
  have h1 : v / a * a + v % a = v := Nat.div_add_mod' _ _
  have h2 : v % a ≠ 0 := fun hz => h (Nat.dvd_of_mod_eq_zero hz)
  omega

/-! ### Reachable states -/

/-- States reachable from `new()` by any sequence of calls, with arbitrary
`usize` arguments (this is exactly the transition system of the source). -/
inductive Reachable (PS : Nat) : EarlyAllocator → Prop where
  | construct : Reachable PS EarlyAllocator.new
  | step_init : ∀ s start size, Reachable PS s → start < USIZE → size < USIZE →
      Reachable PS (EarlyAllocator.init PS s start size)
  | step_alloc : ∀ s size align, Reachable PS s → size < USIZE → align < USIZE →
      Reachable PS (EarlyAllocator.alloc s size align).2
  | step_dealloc : ∀ s pos size align, Reachable PS s → pos < USIZE → size < USIZE →
      align < USIZE → Reachable PS (EarlyAllocator.dealloc s pos size align)
  | step_alloc_pages : ∀ s n k, Reachable PS s → n < USIZE → k < USIZE →
      Reachable PS (EarlyAllocator.alloc_pages PS s n k).2
  | step_dealloc_pages : ∀ s pos n, Reachable PS s → pos < USIZE → n < USIZE →
      Reachable PS (EarlyAllocator.dealloc_pages s pos n)

/-- States reachable by call sequences in which no call wraps the `usize`
arithmetic: every `init` gets a page-aligned, non-overflowing region, every
`alloc` gets a power-of-two alignment whose candidate computation cannot
overflow, and every `alloc_pages` request fits below `p_pos` (no underflow
of `p_pos - num_pages * PAGE_SIZE`). -/
inductive ReachableSafe (PS : Nat) : EarlyAllocator → Prop where
  | construct : ReachableSafe PS EarlyAllocator.new
  | step_init : ∀ s start size, ReachableSafe PS s → 0 < PS →
      start + size < USIZE → PS ∣ (start + size) →
      ReachableSafe PS (EarlyAllocator.init PS s start size)
  | step_alloc : ∀ s size j, ReachableSafe PS s → j ≤ 64 →
      s.b_pos + 2 ^ j + size ≤ USIZE →
      ReachableSafe PS (EarlyAllocator.alloc s size (2 ^ j)).2
  | step_dealloc : ∀ s pos size align, ReachableSafe PS s →
      ReachableSafe PS (EarlyAllocator.dealloc s pos size align)
  | step_alloc_pages : ∀ s n k, ReachableSafe PS s → n * PS ≤ s.p_pos →
      ReachableSafe PS (EarlyAllocator.alloc_pages PS s n k).2
  | step_dealloc_pages : ∀ s pos n, ReachableSafe PS s →
      ReachableSafe PS (EarlyAllocator.dealloc_pages s pos n)

/-- The allocator invariant: the two bump pointers stay ordered inside the
region and `end` is a multiple of the page size (plus representability
of `end`, which the induction needs). -/
def AllocInv (PS : Nat) (s : EarlyAllocator) : Prop :=
  s.start ≤ s.b_pos ∧ s.b_pos ≤ s.p_pos ∧ s.p_pos ≤ s.«end» ∧
  s.«end» < USIZE ∧ PS ∣ s.«end»

theorem inv_of_reachableSafe {PS : Nat} {s : EarlyAllocator}
    (h : ReachableSafe PS s) : AllocInv PS s := by
  induction h with
  | construct =>
      refine ⟨le_refl 0, le_refl 0, le_refl 0, USIZE_pos, Dvd.intro 0 rfl⟩
  | step_init s start size hr hPS hlt hdvd ih =>
      have hadd : wadd start size = start + size := wadd_small hlt
      have hend : (start + size) / PS * PS = start + size :=
        Nat.div_mul_cancel hdvd
      refine ⟨?_, ?_, ?_, ?_, ?_⟩ <;>
        simp only [AllocInv, EarlyAllocator.init, hadd, hend]
      · omega
      · omega
      · omega
      · exact hlt
      · exact hdvd
  | step_alloc s size j hr hj hguard ih =>
      obtain ⟨i1, i2, i3, i4, i5⟩ := ih
      have hpow : (0 : Nat) < 2 ^ j := Nat.pos_pow_of_pos j (by norm_num)
      have hup : EarlyAllocator.align_up s.b_pos (2 ^ j) =
          (s.b_pos + 2 ^ j - 1) / 2 ^ j * 2 ^ j := align_up_eq hj (by omega)
      have hle1 : s.b_pos ≤ EarlyAllocator.align_up s.b_pos (2 ^ j) := by
        rw [hup]; exact le_align_up_mul hpow
      have hle2 : EarlyAllocator.align_up s.b_pos (2 ^ j) ≤ s.b_pos + 2 ^ j - 1 := by
        rw [hup]; exact align_up_mul_le
      have hadd : wadd (EarlyAllocator.align_up s.b_pos (2 ^ j)) size =
          EarlyAllocator.align_up s.b_pos (2 ^ j) + size := wadd_small (by omega)
      by_cases hc :
          wadd (EarlyAllocator.align_up s.b_pos (2 ^ j)) size ≤ s.p_pos
      · simp only [EarlyAllocator.alloc, hc, if_pos]
        rw [hadd] at hc
        refine ⟨by simp; omega, by simp [hadd]; omega, by simpa using i3,
          i4, i5⟩
      · simp only [EarlyAllocator.alloc, hc, if_neg, not_false_iff]
        exact ⟨i1, i2, i3, i4, i5⟩
  | step_dealloc s pos size align hr ih =>
      obtain ⟨i1, i2, i3, i4, i5⟩ := ih
      unfold EarlyAllocator.dealloc
      by_cases hc : wsub s.count 1 = 0
      · simp only [hc, if_pos]
        exact ⟨le_refl _, by simp; omega, by simpa using i3, i4, i5⟩
      · simp only [hc, if_neg, not_false_iff]
        exact ⟨i1, i2, i3, i4, i5⟩
  | step_alloc_pages s n k hr hguard ih =>
      obtain ⟨i1, i2, i3, i4, i5⟩ := ih
      have hp : s.p_pos < USIZE := by omega
      have hmul : wmul n PS = n * PS := by
        unfold wmul; exact Nat.mod_eq_of_lt (by omega)
      have hsub : wsub s.p_pos (wmul n PS) = s.p_pos - n * PS := by
        rw [hmul]; exact wsub_small hguard hp
      have hdown : EarlyAllocator.align_down (s.p_pos - n * PS) (2 ^ (k % 64)) =
          (s.p_pos - n * PS) / 2 ^ (k % 64) * 2 ^ (k % 64) :=
        align_down_eq (le_of_lt (Nat.mod_lt k (by norm_num))) (by omega)
      have hcand : EarlyAllocator.align_down (wsub s.p_pos (wmul n PS)) (2 ^ (k % 64)) ≤
          s.p_pos := by
        rw [hsub, hdown]
        calc (s.p_pos - n * PS) / 2 ^ (k % 64) * 2 ^ (k % 64) ≤ s.p_pos - n * PS :=
              Nat.div_mul_le_self _ _
          _ ≤ s.p_pos := Nat.sub_le _ _
      by_cases hc : s.b_pos ≤
          EarlyAllocator.align_down (wsub s.p_pos (wmul n PS)) (2 ^ (k % 64))
      · simp only [EarlyAllocator.alloc_pages, hc, if_pos]
        exact ⟨by simpa using i1, by simpa using hc, by simp; omega, i4, i5⟩
      · simp only [EarlyAllocator.alloc_pages, hc, if_neg, not_false_iff]
        exact ⟨i1, i2, i3, i4, i5⟩
  | step_dealloc_pages s pos n hr ih =>
      obtain ⟨i1, i2, i3, i4, i5⟩ := ih
      unfold EarlyAllocator.dealloc_pages
      by_cases hc : wsub s.page_count n = 0
      · simp only [hc, if_pos]
        exact ⟨i1, by simp; omega, le_refl _, i4, i5⟩
      · simp only [hc, if_neg, not_false_iff]
        exact ⟨i1, i2, i3, i4, i5⟩

/-! ### Claim C1: the ordering invariant -/

/-- C1, counterexample: the invariant `start ≤ b_pos ≤ p_pos ≤ end` fails
on a reachable state.  A single `init(start = 0x1000, size = 0x100)` call
with `PAGE_SIZE = 0x1000` aligns `end` down to `0x1000` while leaving
`p_pos = 0x1100`, so `p_pos ≤ end` is violated. -/
theorem c1_counterexample :
    Reachable 0x1000 (EarlyAllocator.init 0x1000 EarlyAllocator.new 0x1000 0x100) ∧
    ¬ ((EarlyAllocator.init 0x1000 EarlyAllocator.new 0x1000 0x100).p_pos ≤
        (EarlyAllocator.init 0x1000 EarlyAllocator.new 0x1000 0x100).«end») :=
  ⟨Reachable.step_init _ _ _ Reachable.construct (by decide) (by decide), by decide⟩

/-- C1, amended: for every state reached by calls that do not wrap the
`usize` arithmetic — every `init` region is page-aligned and does not
overflow, every `alloc` alignment is a power of two with non-overflowing
candidate computation, every `alloc_pages` request does not underflow
`p_pos - num_pages * PAGE_SIZE` — the ordering `start ≤ b_pos ≤ p_pos ≤ end`
holds and `end` is a multiple of the page size. -/
theorem c1_invariant (PS : Nat) (s : EarlyAllocator) (h : ReachableSafe PS s) :
    s.start ≤ s.b_pos ∧ s.b_pos ≤ s.p_pos ∧ s.p_pos ≤ s.«end» ∧ PS ∣ s.«end» := by
  obtain ⟨i1, i2, i3, _, i5⟩ := inv_of_reachableSafe h
  exact ⟨i1, i2, i3, i5⟩

/-- C1, witness: the amended invariant at the spec's concrete initialized
state `init(0x1000, 0x2000)` with `PAGE_SIZE = 0x1000`. -/
theorem c1_invariant_witness :
    (EarlyAllocator.init 0x1000 EarlyAllocator.new 0x1000 0x2000).start ≤
      (EarlyAllocator.init 0x1000 EarlyAllocator.new 0x1000 0x2000).b_pos ∧
    (EarlyAllocator.init 0x1000 EarlyAllocator.new 0x1000 0x2000).b_pos ≤
      (EarlyAllocator.init 0x1000 EarlyAllocator.new 0x1000 0x2000).p_pos ∧
    (EarlyAllocator.init 0x1000 EarlyAllocator.new 0x1000 0x2000).p_pos ≤
      (EarlyAllocator.init 0x1000 EarlyAllocator.new 0x1000 0x2000).«end» ∧
    (0x1000 : Nat) ∣ (EarlyAllocator.init 0x1000 EarlyAllocator.new 0x1000 0x2000).«end» :=
  c1_invariant 0x1000 _
    (ReachableSafe.step_init _ _ _ ReachableSafe.construct (by norm_num)
      (by norm_num [USIZE]) (by norm_num))

/-! ### Claim C2: the byte-allocation transition -/

/-- C2, counterexample: on the freshly constructed all-zero allocator,
`alloc(size = 0, align = 1)` passes the space check with candidate
address 0, so the claim predicts a success returning 0; the code instead
panics on the `NonNull::new(..).unwrap()` and returns nothing. -/
theorem c2_counterexample :
    wadd (EarlyAllocator.align_up EarlyAllocator.new.b_pos 1) 0 ≤
      EarlyAllocator.new.p_pos ∧
    (EarlyAllocator.alloc EarlyAllocator.new 0 1).1 ≠
      EarlyAllocator.ARes.ok (EarlyAllocator.align_up EarlyAllocator.new.b_pos 1) := by
  decide

/-- C2, amended: for every state and every `alloc(size, align)` with
power-of-two `align = 2 ^ j`, let `candidate = align_up(b_pos, align)`;
provided `candidate ≠ 0` (otherwise the non-null assertion panics), the
call succeeds if and only if `candidate + size ≤ p_pos` in `usize`
arithmetic, and on success sets `b_pos = candidate + size`, increments
`count`, and returns `candidate`; on failure it reports no-memory with the
state unchanged. -/
theorem c2_alloc_spec (s : EarlyAllocator) (size j : Nat)
    (hnz : EarlyAllocator.align_up s.b_pos (2 ^ j) ≠ 0) :
    (wadd (EarlyAllocator.align_up s.b_pos (2 ^ j)) size ≤ s.p_pos →
      EarlyAllocator.alloc s size (2 ^ j) =
        (EarlyAllocator.ARes.ok (EarlyAllocator.align_up s.b_pos (2 ^ j)),
         { s with b_pos := wadd (EarlyAllocator.align_up s.b_pos (2 ^ j)) size,
                  count := wadd s.count 1 })) ∧
    (¬ wadd (EarlyAllocator.align_up s.b_pos (2 ^ j)) size ≤ s.p_pos →
      EarlyAllocator.alloc s size (2 ^ j) = (EarlyAllocator.ARes.noMemory, s)) := by
  constructor <;> intro hc <;> simp [EarlyAllocator.alloc, hc, hnz]

/-- C2, witness: in the spec scenario state, `alloc(16, 8)` succeeds,
returns `0x1000` and bumps `b_pos` to `0x1010`. -/
theorem c2_alloc_spec_witness :
    EarlyAllocator.alloc (EarlyAllocator.init 0x1000 EarlyAllocator.new 0x1000 0x2000) 16 (2 ^ 3) =
      (EarlyAllocator.ARes.ok
        (EarlyAllocator.align_up
          (EarlyAllocator.init 0x1000 EarlyAllocator.new 0x1000 0x2000).b_pos (2 ^ 3)),
       { EarlyAllocator.init 0x1000 EarlyAllocator.new 0x1000 0x2000 with
         b_pos := wadd (EarlyAllocator.align_up
           (EarlyAllocator.init 0x1000 EarlyAllocator.new 0x1000 0x2000).b_pos (2 ^ 3)) 16,
         count := wadd (EarlyAllocator.init 0x1000 EarlyAllocator.new 0x1000 0x2000).count 1 }) :=
  (c2_alloc_spec (EarlyAllocator.init 0x1000 EarlyAllocator.new 0x1000 0x2000) 16 3
    (by decide)).1 (by decide)

/-! ### Claim C3: the page-allocation transition -/

/-- C3: for every state and every `alloc_pages(count, align_pow2)` call
with representable alignment (`align_pow2 < 64`, `align = 2 ^ align_pow2`):
the candidate is `align_down(p_pos - count * PAGE_SIZE, align)` in wrapping
`usize` arithmetic; the call succeeds if and only if `candidate ≥ b_pos`,
and on success sets `p_pos = candidate`, increments `page_count` by
`count`, and returns `candidate`; on failure it reports no-memory with no
state change. -/
theorem c3_alloc_pages_spec (PS : Nat) (s : EarlyAllocator) (n k : Nat)
    (hk : k < 64) :
    (s.b_pos ≤ EarlyAllocator.align_down (wsub s.p_pos (wmul n PS)) (2 ^ k) →
      EarlyAllocator.alloc_pages PS s n k =
        (EarlyAllocator.PRes.ok
          (EarlyAllocator.align_down (wsub s.p_pos (wmul n PS)) (2 ^ k)),
         { s with
           p_pos := EarlyAllocator.align_down (wsub s.p_pos (wmul n PS)) (2 ^ k),
           page_count := wadd s.page_count n })) ∧
    (¬ s.b_pos ≤ EarlyAllocator.align_down (wsub s.p_pos (wmul n PS)) (2 ^ k) →
      EarlyAllocator.alloc_pages PS s n k = (EarlyAllocator.PRes.noMemory, s)) := by
  have hkk : k % 64 = k := Nat.mod_eq_of_lt hk
  constructor <;> intro hc <;> simp [EarlyAllocator.alloc_pages, hkk, hc]

/-- C3, witness: the spec scenario.  After `init(0x1000, 0x2000)` and
`alloc(16, 8)`, the call `alloc_pages(1, 12)` succeeds with candidate
`align_down(0x3000 - 0x1000, 0x1000) = 0x2000 ≥ 0x1010`, returns `0x2000`
and sets `p_pos = 0x2000`. -/
theorem c3_alloc_pages_spec_witness :
    EarlyAllocator.alloc_pages 0x1000
      { start := 0x1000, «end» := 0x3000, b_pos := 0x1010, p_pos := 0x3000,
        count := 1, page_count := 0 } 1 12 =
      (EarlyAllocator.PRes.ok 0x2000,
       { start := 0x1000, «end» := 0x3000, b_pos := 0x1010, p_pos := 0x2000,
         count := 1, page_count := 1 }) := by
  have h := (c3_alloc_pages_spec 0x1000
    { start := 0x1000, «end» := 0x3000, b_pos := 0x1010, p_pos := 0x3000,
      count := 1, page_count := 0 } 1 12 (by norm_num)).1 (by decide)
  rw [h]
  decide

/-! ### Claim C4: the `init` transition -/

/-- C4: for every prior state and every `start`/`size`, `init(start, size)`
(with power-of-two page size) sets `start`, `end = align_down(start + size,
PAGE_SIZE)`, `b_pos = start` and `p_pos = start + size` (`usize` addition);
in particular `init(0x1000, 0x2000)` with `PAGE_SIZE = 0x1000` yields
`end = 0x3000`, `b_pos = 0x1000`, `p_pos = 0x3000`. -/
theorem c4_init_spec :
    (∀ (pk : Nat) (s : EarlyAllocator) (start size : Nat), pk ≤ 64 →
      EarlyAllocator.init (2 ^ pk) s start size =
        { s with start := start,
                 «end» := EarlyAllocator.align_down (wadd start size) (2 ^ pk),
                 b_pos := start, p_pos := wadd start size }) ∧
    EarlyAllocator.init 0x1000 EarlyAllocator.new 0x1000 0x2000 =
      { start := 0x1000, «end» := 0x3000, b_pos := 0x1000, p_pos := 0x3000,
        count := 0, page_count := 0 } := by
  constructor
  · intro pk s start size hpk
    have hlt : wadd start size < USIZE := by
      unfold wadd
      exact Nat.mod_lt _ USIZE_pos
    have hd : EarlyAllocator.align_down (wadd start size) (2 ^ pk) =
        wadd start size / 2 ^ pk * 2 ^ pk := align_down_eq hpk hlt
    simp [EarlyAllocator.init, hd]
  · decide

/-- C4, witness: the general clause of `c4_init_spec` instantiated at the
spec scenario (`pk = 12`, so `PAGE_SIZE = 0x1000`). -/
theorem c4_init_spec_witness :
    EarlyAllocator.init (2 ^ 12) EarlyAllocator.new 0x1000 0x2000 =
      { EarlyAllocator.new with
        start := 0x1000,
        «end» := EarlyAllocator.align_down (wadd 0x1000 0x2000) (2 ^ 12),
        b_pos := 0x1000, p_pos := wadd 0x1000 0x2000 } :=
  c4_init_spec.1 12 EarlyAllocator.new 0x1000 0x2000 (by norm_num)

/-! ### Claim C5: no mutation on failure -/

/-- C5: whenever `alloc` or `alloc_pages` reports no-memory, the state is
unchanged — the failing call performs no partial mutation. -/
theorem c5_no_mutation_on_failure (PS : Nat) (s : EarlyAllocator)
    (size align n k : Nat) :
    ((EarlyAllocator.alloc s size align).1 = EarlyAllocator.ARes.noMemory →
      (EarlyAllocator.alloc s size align).2 = s) ∧
    ((EarlyAllocator.alloc_pages PS s n k).1 = EarlyAllocator.PRes.noMemory →
      (EarlyAllocator.alloc_pages PS s n k).2 = s) := by
  constructor
  · intro h
    by_cases hc : wadd (EarlyAllocator.align_up s.b_pos align) size ≤ s.p_pos
    · exfalso
      by_cases hz : EarlyAllocator.align_up s.b_pos align = 0
      · rw [hz] at hc
        simp [EarlyAllocator.alloc, hz, hc] at h
      · simp [EarlyAllocator.alloc, hc, hz] at h
    · simp [EarlyAllocator.alloc, hc]
  · intro h
    by_cases hc : s.b_pos ≤
        EarlyAllocator.align_down (wsub s.p_pos (wmul n PS)) (2 ^ (k % 64))
    · exfalso
      simp [EarlyAllocator.alloc_pages, hc] at h
    · simp [EarlyAllocator.alloc_pages, hc]

/-- C5, witness: in the spec scenario state a byte request of `0x3000`
bytes and a page request of three pages both fail and leave the state
untouched. -/
theorem c5_no_mutation_on_failure_witness :
    ((EarlyAllocator.alloc (EarlyAllocator.init 0x1000 EarlyAllocator.new 0x1000 0x2000)
        0x3000 1).2 = EarlyAllocator.init 0x1000 EarlyAllocator.new 0x1000 0x2000) ∧
    ((EarlyAllocator.alloc_pages 0x1000
        (EarlyAllocator.init 0x1000 EarlyAllocator.new 0x1000 0x2000) 3 0).2 =
      EarlyAllocator.init 0x1000 EarlyAllocator.new 0x1000 0x2000) :=
  ⟨(c5_no_mutation_on_failure 0x1000 _ 0x3000 1 3 0).1 (by decide),
   (c5_no_mutation_on_failure 0x1000 _ 0x3000 1 3 0).2 (by decide)⟩

/-! ### Claim C6: counter-driven collective reclamation -/

/-- C6: `dealloc` ignores its address/layout arguments; given
`0 < count` (and a representable counter) it decrements `count` by one,
resets `b_pos` to `start` exactly when the counter reaches zero (making
`available_bytes = total_bytes`), and leaves `b_pos` untouched otherwise.
`dealloc_pages` is symmetric: given `num_pages ≤ page_count` it decrements
`page_count` by `num_pages` and resets `p_pos` to `end` exactly when the
counter reaches zero. -/
theorem c6_release_spec (s : EarlyAllocator)
    (pos size align pos' size' align' q n q' : Nat) :
    (0 < s.count → s.count < USIZE →
      ((EarlyAllocator.dealloc s pos size align).count = s.count - 1 ∧
       (s.count - 1 = 0 →
         (EarlyAllocator.dealloc s pos size align).b_pos = s.start ∧
         EarlyAllocator.available_bytes (EarlyAllocator.dealloc s pos size align) =
           EarlyAllocator.total_bytes (EarlyAllocator.dealloc s pos size align)) ∧
       (s.count - 1 ≠ 0 →
         (EarlyAllocator.dealloc s pos size align).b_pos = s.b_pos) ∧
       EarlyAllocator.dealloc s pos size align =
         EarlyAllocator.dealloc s pos' size' align')) ∧
    (n ≤ s.page_count → s.page_count < USIZE →
      ((EarlyAllocator.dealloc_pages s q n).page_count = s.page_count - n ∧
       (s.page_count - n = 0 →
         (EarlyAllocator.dealloc_pages s q n).p_pos = s.«end») ∧
       (s.page_count - n ≠ 0 →
         (EarlyAllocator.dealloc_pages s q n).p_pos = s.p_pos) ∧
       EarlyAllocator.dealloc_pages s q n = EarlyAllocator.dealloc_pages s q' n)) := by
  constructor
  · intro hpos hlt
    have hsub : wsub s.count 1 = s.count - 1 := wsub_small (by omega) hlt
    refine ⟨?_, ?_, ?_, rfl⟩
    · by_cases hz : s.count - 1 = 0 <;>
        simp [EarlyAllocator.dealloc, hsub, hz]
    · intro hz
      refine ⟨by simp [EarlyAllocator.dealloc, hsub, hz], ?_⟩
      simp [EarlyAllocator.dealloc, hsub, hz, EarlyAllocator.available_bytes,
        EarlyAllocator.total_bytes]
    · intro hz
      simp [EarlyAllocator.dealloc, hsub, hz]
  · intro hle hlt
    have hsub : wsub s.page_count n = s.page_count - n := wsub_small hle hlt
    refine ⟨?_, ?_, ?_, rfl⟩
    · by_cases hz : s.page_count - n = 0 <;>
        simp [EarlyAllocator.dealloc_pages, hsub, hz]
    · intro hz
      simp [EarlyAllocator.dealloc_pages, hsub, hz]
    · intro hz
      simp [EarlyAllocator.dealloc_pages, hsub, hz]

/-- C6, witness: with one outstanding byte allocation and two outstanding
pages, releasing them resets `b_pos` to `start` and `p_pos` to `end`,
regardless of the address arguments passed in. -/
theorem c6_release_spec_witness :
    (EarlyAllocator.dealloc
      (⟨0x1000, 0x3000, 0x1010, 0x2000, 1, 2⟩ : EarlyAllocator) 0x1234 16 8).count = 1 - 1 ∧
    (EarlyAllocator.dealloc
      (⟨0x1000, 0x3000, 0x1010, 0x2000, 1, 2⟩ : EarlyAllocator) 0x1234 16 8).b_pos = 0x1000 ∧
    (EarlyAllocator.dealloc_pages
      (⟨0x1000, 0x3000, 0x1010, 0x2000, 1, 2⟩ : EarlyAllocator) 0x9999 2).p_pos = 0x3000 := by
  have hb := (c6_release_spec
    (⟨0x1000, 0x3000, 0x1010, 0x2000, 1, 2⟩ : EarlyAllocator)
    0x1234 16 8 0 0 0 0x9999 2 0).1 (by decide) (by decide)
  have hp := (c6_release_spec
    (⟨0x1000, 0x3000, 0x1010, 0x2000, 1, 2⟩ : EarlyAllocator)
    0x1234 16 8 0 0 0 0x9999 2 0).2 (by decide) (by decide)
  exact ⟨hb.1, (hb.2.1 (by decide)).1, hp.2.1 (by decide)⟩

/-! ### Claim C7: monotonicity of the bump pointers -/

/-- C7, counterexample: with wrapping `usize` arithmetic the claim fails.
At `b_pos = 2 ^ 64 - 16`, `alloc(16, 1)` succeeds (the wrapped end
`candidate + size = 0` passes the bound check) and drops `b_pos` to `0`;
and from the initialized state `(b_pos, p_pos) = (0x1000, 0x2000)` the call
`alloc_pages(2 ^ 52 - 1, 0)` underflows, succeeds, and raises `p_pos` to
`0x3000`. -/
theorem c7_counterexample :
    ((EarlyAllocator.alloc
        (⟨0, 0, USIZE - 16, USIZE - 1, 0, 0⟩ : EarlyAllocator) 16 1).1 =
          EarlyAllocator.ARes.ok (USIZE - 16) ∧
      (EarlyAllocator.alloc
        (⟨0, 0, USIZE - 16, USIZE - 1, 0, 0⟩ : EarlyAllocator) 16 1).2.b_pos <
          USIZE - 16) ∧
    ((EarlyAllocator.alloc_pages 0x1000
        (⟨0x1000, 0x2000, 0x1000, 0x2000, 0, 0⟩ : EarlyAllocator) (2 ^ 52 - 1) 0).1 =
          EarlyAllocator.PRes.ok 0x3000 ∧
      0x2000 < (EarlyAllocator.alloc_pages 0x1000
        (⟨0x1000, 0x2000, 0x1000, 0x2000, 0, 0⟩ : EarlyAllocator) (2 ^ 52 - 1) 0).2.p_pos) := by
  decide

/-- C7, amended: when the call's arithmetic does not wrap — power-of-two
byte alignment with `b_pos + align + size ≤ 2 ^ 64`, and a page request
with `num_pages * PAGE_SIZE ≤ p_pos` — a successful `alloc` never
decreases `b_pos` and a successful `alloc_pages` never increases
`p_pos`. -/
theorem c7_monotonic (PS : Nat) (s : EarlyAllocator) (size j n k : Nat) :
    (j ≤ 64 → s.b_pos + 2 ^ j + size ≤ USIZE →
      ∀ a, (EarlyAllocator.alloc s size (2 ^ j)).1 = EarlyAllocator.ARes.ok a →
        s.b_pos ≤ (EarlyAllocator.alloc s size (2 ^ j)).2.b_pos) ∧
    (n * PS ≤ s.p_pos → s.p_pos < USIZE →
      ∀ a, (EarlyAllocator.alloc_pages PS s n k).1 = EarlyAllocator.PRes.ok a →
        (EarlyAllocator.alloc_pages PS s n k).2.p_pos ≤ s.p_pos) := by
  constructor
  · intro hj hguard a ha
    have hpow : (0 : Nat) < 2 ^ j := Nat.pos_pow_of_pos j (by norm_num)
    have hup : EarlyAllocator.align_up s.b_pos (2 ^ j) =
        (s.b_pos + 2 ^ j - 1) / 2 ^ j * 2 ^ j := align_up_eq hj (by omega)
    have hle1 : s.b_pos ≤ EarlyAllocator.align_up s.b_pos (2 ^ j) := by
      rw [hup]; exact le_align_up_mul hpow
    have hle2 : EarlyAllocator.align_up s.b_pos (2 ^ j) ≤ s.b_pos + 2 ^ j - 1 := by
      rw [hup]; exact align_up_mul_le
    have hadd : wadd (EarlyAllocator.align_up s.b_pos (2 ^ j)) size =
        EarlyAllocator.align_up s.b_pos (2 ^ j) + size := wadd_small (by omega)
    by_cases hc : wadd (EarlyAllocator.align_up s.b_pos (2 ^ j)) size ≤ s.p_pos
    · simp only [EarlyAllocator.alloc, hc, if_pos]
      rw [hadd]
      omega
    · exfalso
      simp [EarlyAllocator.alloc, hc] at ha
  · intro hguard hp a ha
    have hmul : wmul n PS = n * PS := by
      unfold wmul; exact Nat.mod_eq_of_lt (by omega)
    have hsub : wsub s.p_pos (wmul n PS) = s.p_pos - n * PS := by
      rw [hmul]; exact wsub_small hguard hp
    have hdown : EarlyAllocator.align_down (s.p_pos - n * PS) (2 ^ (k % 64)) =
        (s.p_pos - n * PS) / 2 ^ (k % 64) * 2 ^ (k % 64) :=
      align_down_eq (le_of_lt (Nat.mod_lt k (by norm_num))) (by omega)
    by_cases hc : s.b_pos ≤
        EarlyAllocator.align_down (wsub s.p_pos (wmul n PS)) (2 ^ (k % 64))
    · simp only [EarlyAllocator.alloc_pages, hc, if_pos]
      rw [hsub, hdown]
      calc (s.p_pos - n * PS) / 2 ^ (k % 64) * 2 ^ (k % 64)
          ≤ s.p_pos - n * PS := Nat.div_mul_le_self _ _
        _ ≤ s.p_pos := Nat.sub_le _ _
    · exfalso
      simp [EarlyAllocator.alloc_pages, hc] at ha

/-- C7, witness: the two monotonicity clauses at the spec scenario calls
`alloc(16, 8)` and `alloc_pages(1, 12)`. -/
theorem c7_monotonic_witness :
    ((EarlyAllocator.init 0x1000 EarlyAllocator.new 0x1000 0x2000).b_pos ≤
      (EarlyAllocator.alloc (EarlyAllocator.init 0x1000 EarlyAllocator.new 0x1000 0x2000)
        16 (2 ^ 3)).2.b_pos) ∧
    ((EarlyAllocator.alloc_pages 0x1000
        (⟨0x1000, 0x3000, 0x1010, 0x3000, 1, 0⟩ : EarlyAllocator) 1 12).2.p_pos ≤
      (⟨0x1000, 0x3000, 0x1010, 0x3000, 1, 0⟩ : EarlyAllocator).p_pos) :=
  ⟨(c7_monotonic 0x1000 _ 16 3 1 12).1 (by norm_num) (by decide) 0x1000 (by decide),
   (c7_monotonic 0x1000 _ 16 3 1 12).2 (by decide) (by decide) 0x2000 (by decide)⟩

/-! ### Claim C8: `add_memory` -/

/-- C8, counterexample: `extend` does not return the `Unsupported` error
value — its body is `unimplemented!()`, which panics instead of
returning. -/
theorem c8_counterexample :
    (EarlyAllocator.add_memory EarlyAllocator.new 0x4000 0x1000).1 ≠
      EarlyAllocator.ExtendOutcome.unsupported := by
  decide

/-- C8, amended: for every state and arguments, `add_memory` fails
fatally: it panics (`unimplemented!()`) rather than returning a value,
and performs no state mutation before the panic. -/
theorem c8_add_memory_panics (s : EarlyAllocator) (start size : Nat) :
    EarlyAllocator.add_memory s start size =
      (EarlyAllocator.ExtendOutcome.panicUnimpl, s) :=
  rfl

/-! ### Claim C9: the non-null assertion in `alloc` -/

/-- C9, counterexample: `b_pos > 0` alone does not protect the unwrap.
At `b_pos = 2 ^ 64 - 1` the candidate `align_up(b_pos, 2)` wraps to `0`,
the space check `0 + 0 ≤ p_pos` passes, and the non-null assertion
fails even though `b_pos > 0`. -/
theorem c9_counterexample :
    0 < (⟨0, 0, USIZE - 1, 0, 0, 0⟩ : EarlyAllocator).b_pos ∧
    (EarlyAllocator.alloc (⟨0, 0, USIZE - 1, 0, 0, 0⟩ : EarlyAllocator) 0 2).1 =
      EarlyAllocator.ARes.panicNull := by
  decide

/-- C9, amended: in every state with `b_pos > 0` whose aligned-candidate
computation does not wrap (`align = 2 ^ j` with `b_pos + align ≤ 2 ^ 64`),
`alloc` cannot hit the non-null assertion and any address it returns is
nonzero; and on the freshly constructed all-zero allocator, `alloc(0, 1)`
passes the space check with address `0` and the assertion fails. -/
theorem c9_null_safety (s : EarlyAllocator) (size j : Nat) (hj : j ≤ 64)
    (hg : s.b_pos + 2 ^ j ≤ USIZE) :
    (0 < s.b_pos →
      (EarlyAllocator.alloc s size (2 ^ j)).1 ≠ EarlyAllocator.ARes.panicNull ∧
      ∀ a, (EarlyAllocator.alloc s size (2 ^ j)).1 = EarlyAllocator.ARes.ok a →
        0 < a) ∧
    ((EarlyAllocator.alloc EarlyAllocator.new 0 1).1 =
        EarlyAllocator.ARes.panicNull ∧
      EarlyAllocator.align_up EarlyAllocator.new.b_pos 1 = 0 ∧
      wadd (EarlyAllocator.align_up EarlyAllocator.new.b_pos 1) 0 ≤
        EarlyAllocator.new.p_pos) := by
  constructor
  · intro hb
    have hpow : (0 : Nat) < 2 ^ j := Nat.pos_pow_of_pos j (by norm_num)
    have hup : EarlyAllocator.align_up s.b_pos (2 ^ j) =
        (s.b_pos + 2 ^ j - 1) / 2 ^ j * 2 ^ j := align_up_eq hj hg
    have hle1 : s.b_pos ≤ EarlyAllocator.align_up s.b_pos (2 ^ j) := by
      rw [hup]; exact le_align_up_mul hpow
    have hnz : EarlyAllocator.align_up s.b_pos (2 ^ j) ≠ 0 := by omega
    by_cases hc : wadd (EarlyAllocator.align_up s.b_pos (2 ^ j)) size ≤ s.p_pos
    · constructor
      · simp [EarlyAllocator.alloc, hc, hnz]
      · intro a ha
        simp [EarlyAllocator.alloc, hc, hnz] at ha
        omega
    · constructor
      · simp [EarlyAllocator.alloc, hc]
      · intro a ha
        simp [EarlyAllocator.alloc, hc] at ha
  · exact ⟨by decide, by decide, by decide⟩

/-- C9, witness: the amended safety clause at the spec scenario state,
where `alloc(16, 8)` returns the nonzero address `0x1000`. -/
theorem c9_null_safety_witness :
    (EarlyAllocator.alloc (EarlyAllocator.init 0x1000 EarlyAllocator.new 0x1000 0x2000)
        16 (2 ^ 3)).1 ≠ EarlyAllocator.ARes.panicNull :=
  ((c9_null_safety (EarlyAllocator.init 0x1000 EarlyAllocator.new 0x1000 0x2000)
    16 3 (by norm_num) (by decide)).1 (by decide)).1

/-! ### Claim C10: zero-page requests -/

/-- C10: for every state with representable fields and every exponent
`k < 64`, `alloc_pages(0, k)` succeeds whenever
`align_down(p_pos, 2 ^ k) ≥ b_pos`, returning that candidate and setting
`p_pos` to it while leaving `page_count` (and everything else) unchanged;
and the new `p_pos` is a strict decrease whenever `p_pos` is not a
multiple of `2 ^ k`. -/
theorem c10_zero_pages (PS : Nat) (s : EarlyAllocator) (k : Nat) (hk : k < 64)
    (hp : s.p_pos < USIZE) (hpc : s.page_count < USIZE) :
    (s.b_pos ≤ EarlyAllocator.align_down s.p_pos (2 ^ k) →
      EarlyAllocator.alloc_pages PS s 0 k =
        (EarlyAllocator.PRes.ok (EarlyAllocator.align_down s.p_pos (2 ^ k)),
         { s with p_pos := EarlyAllocator.align_down s.p_pos (2 ^ k) })) ∧
    (¬ (2 ^ k : Nat) ∣ s.p_pos →
      EarlyAllocator.align_down s.p_pos (2 ^ k) < s.p_pos) := by
  have hkk : k % 64 = k := Nat.mod_eq_of_lt hk
  have hmul : wmul 0 PS = 0 := by
    unfold wmul
    simp
  have hsub : wsub s.p_pos 0 = s.p_pos := by
    unfold wsub
    simp [Nat.mod_eq_of_lt hp, Nat.add_mod_right, Nat.mod_eq_of_lt hp]
  have hwadd : wadd s.page_count 0 = s.page_count := by
    unfold wadd
    simpa using Nat.mod_eq_of_lt hpc
  constructor
  · intro hc
    simp only [EarlyAllocator.alloc_pages, hkk, hmul, hsub, hwadd, hc, if_pos]
  · intro hdvd
    have hdown : EarlyAllocator.align_down s.p_pos (2 ^ k) =
        s.p_pos / 2 ^ k * 2 ^ k := align_down_eq (le_of_lt hk) hp
    rw [hdown]
    exact div_mul_lt_of_not_dvd (Nat.pos_pow_of_pos k (by norm_num)) hdvd

/-- C10, witness: at `p_pos = 0x2500`, `alloc_pages(0, 12)` succeeds,
moves `p_pos` down to `0x2000` and leaves `page_count` at `0`. -/
theorem c10_zero_pages_witness :
    EarlyAllocator.alloc_pages 0x1000
      (⟨0x1000, 0x3000, 0x1000, 0x2500, 0, 0⟩ : EarlyAllocator) 0 12 =
      (EarlyAllocator.PRes.ok 0x2000,
       (⟨0x1000, 0x3000, 0x1000, 0x2000, 0, 0⟩ : EarlyAllocator)) ∧
    EarlyAllocator.align_down
      (⟨0x1000, 0x3000, 0x1000, 0x2500, 0, 0⟩ : EarlyAllocator).p_pos (2 ^ 12) <
      (⟨0x1000, 0x3000, 0x1000, 0x2500, 0, 0⟩ : EarlyAllocator).p_pos := by
  have T := c10_zero_pages 0x1000
    (⟨0x1000, 0x3000, 0x1000, 0x2500, 0, 0⟩ : EarlyAllocator) 12
    (by norm_num) (by decide) (by decide)
  constructor
  · rw [T.1 (by decide)]
    decide
  · exact T.2 (by decide)
